import Mathlib

/-!
Shallow embedding of the bauh API excerpt: the paths module
(`bauh/api/paths.py`) and the abstract model module
(`bauh/api/abstract/model.py`).

Python strings are `String`, Python `None`-able values are `Option`,
Python `int` is `Int`, Python booleans are `Bool`.  Environment inputs
that the modules read at import time (the effective-user check
`user.is_root()`, `Path.home()`, `getuser()`, `__app_name__`) are
passed as explicit arguments.  A Python operation that can raise is
modelled with `Option` (`none` models the raised exception).
-/

namespace Bauh

/-! ### bauh/api/paths.py -/

/-- Model of `CACHE_PATH`: a root-owned system dir when the effective user
is root, otherwise a dir under the user home. -/
def CACHE_PATH (is_root : Bool) (app_name home : String) : String :=
  if is_root then "/var/cache/" ++ app_name else home ++ "/.cache/" ++ app_name

/-- Model of `CONFIG_DIR`. -/
def CONFIG_DIR (is_root : Bool) (app_name home : String) : String :=
  if is_root then "/etc/" ++ app_name else home ++ "/.config/" ++ app_name

/-- Model of `USER_THEMES_PATH`: the source line reads only `Path.home()`,
it does not consult `user.is_root()`. -/
def USER_THEMES_PATH (home : String) : String :=
  home ++ "/.local/share/bauh/themes"

/-- Model of `DESKTOP_ENTRIES_DIR`: reads only `Path.home()`. -/
def DESKTOP_ENTRIES_DIR (home : String) : String :=
  home ++ "/.local/share/applications"

/-- Model of `TEMP_DIR`: reads `__app_name__` and `getuser()`, not
`user.is_root()`. -/
def TEMP_DIR (app_name username : String) : String :=
  "/tmp/" ++ app_name ++ "@" ++ username

/-- Model of `LOGS_DIR`. -/
def LOGS_DIR (app_name username : String) : String :=
  TEMP_DIR app_name username ++ "/logs"

/-- Model of `AUTOSTART_DIR`. -/
def AUTOSTART_DIR (is_root : Bool) (home : String) : String :=
  if is_root then "/etc/xdg/autostart" else home ++ "/.config/autostart"

/-- The seven module-level constants of the paths module, bundled. -/
structure PathConstants where
  cache_path : String
  config_dir : String
  user_themes_path : String
  desktop_entries_dir : String
  temp_dir : String
  logs_dir : String
  autostart_dir : String
deriving DecidableEq, Repr

/-- Evaluation of the whole paths module in an environment: `is_root` is
the result of `user.is_root()`, `app_name` is `__app_name__`, `home` is
`str(Path.home())` and `username` is `getuser()`. -/
def pathsModule (is_root : Bool) (app_name home username : String) : PathConstants :=
  { cache_path := CACHE_PATH is_root app_name home
    config_dir := CONFIG_DIR is_root app_name home
    user_themes_path := USER_THEMES_PATH home
    desktop_entries_dir := DESKTOP_ENTRIES_DIR home
    temp_dir := TEMP_DIR app_name username
    logs_dir := LOGS_DIR app_name username
    autostart_dir := AUTOSTART_DIR is_root home }

/-! ### bauh/api/abstract/model.py -/

/-- Model of `PackageStatus`. -/
inductive PackageStatus where
  | READY
  | LOADING_DATA
deriving DecidableEq, Repr

/-- Model of `CustomSoftwareAction`'s instance dictionary: the twelve
attributes set by `__init__`, in insertion order.  `icon_path`,
`i18n_confirm_key` and `i18n_description_key` may be `None`; `manager`
is an optional `SoftwareManager` reference, modelled by the identity of
the referenced object (`Option Nat`). -/
structure CustomSoftwareAction where
  i18n_label_key : String
  i18n_status_key : String
  icon_path : Option String
  manager_method : String
  requires_root : Bool
  manager : Option Nat
  backup : Bool
  refresh : Bool
  i18n_confirm_key : Option String
  requires_internet : Bool
  requires_confirmation : Bool
  i18n_description_key : Option String
deriving DecidableEq, Repr

/-- Model of `CustomSoftwareAction.__eq__`: `self.__dict__ == other.__dict__`,
an attribute-by-attribute comparison over all twelve attributes. -/
def csaEq (a b : CustomSoftwareAction) : Bool :=
  (a.i18n_label_key == b.i18n_label_key) &&
  (a.i18n_status_key == b.i18n_status_key) &&
  (a.icon_path == b.icon_path) &&
  (a.manager_method == b.manager_method) &&
  (a.requires_root == b.requires_root) &&
  (a.manager == b.manager) &&
  (a.backup == b.backup) &&
  (a.refresh == b.refresh) &&
  (a.i18n_confirm_key == b.i18n_confirm_key) &&
  (a.requires_internet == b.requires_internet) &&
  (a.requires_confirmation == b.requires_confirmation) &&
  (a.i18n_description_key == b.i18n_description_key)

/-- Model of `CustomSoftwareAction.__hash__`:
`sum(hash(val) for val in self.__dict__.values())`.  The built-in
`hash` is abstract here: one hash function per attribute type
(`hs` for `str`, `hos` for `Optional[str]`, `hb` for `bool`, `hm` for
the optional manager reference). -/
def csaHash (hs : String → Int) (hos : Option String → Int)
    (hb : Bool → Int) (hm : Option Nat → Int)
    (a : CustomSoftwareAction) : Int :=
  hs a.i18n_label_key + hs a.i18n_status_key + hos a.icon_path +
  hs a.manager_method + hb a.requires_root + hm a.manager +
  hb a.backup + hb a.refresh + hos a.i18n_confirm_key +
  hb a.requires_internet + hb a.requires_confirmation +
  hos a.i18n_description_key

/-- Model of Python `str.split(sep)` over the character list: empty
segments are kept and splitting the empty list yields one empty
segment, as in CPython. -/
def splitCh (sep : Char) : List Char → List (List Char)
  | [] => [[]]
  | c :: cs =>
    match splitCh sep cs with
    | [] => [[]]
    | r :: rs => if c = sep then [] :: r :: rs else (c :: r) :: rs

/-- Model of Python `s.split(sep)` for a single-character separator. -/
def pySplit (s : String) (sep : Char) : List String :=
  (splitCh sep s.toList).map (fun l => String.mk l)

/-- Model of the `gem_name` derivation in `SoftwarePackage.__init__`:
`self.__module__.split('.')[2]`.  The indexing raises `IndexError` when
the dotted module name has fewer than three segments, so the result is
an `Option`: `none` models the raised exception. -/
def gem_name (module_name : String) : Option String :=
  (pySplit module_name '.').get? 2

/-- Model of a `SoftwarePackage` instance.  The attributes set by
`__init__` keep their source names; `get_type` and `is_application`
hold the results of the abstract methods of the same names, which a
concrete package variant must supply.  `module_name` is the value of
`self.__module__` for the concrete class. -/
structure SoftwarePackage where
  id : Option String
  version : Option String
  name : Option String
  description : Option String
  latest_version : Option String
  icon_url : Option String
  status : PackageStatus
  installed : Bool
  update : Bool
  size : Option Int
  categories : Option (List String)
  license : Option String
  module_name : String
  get_type : String
  is_application : Bool
deriving DecidableEq, Repr

/-- Model of `SoftwarePackage.can_be_uninstalled`. -/
def SoftwarePackage.can_be_uninstalled (p : SoftwarePackage) : Bool :=
  p.installed

/-- Model of `SoftwarePackage.can_be_installed`. -/
def SoftwarePackage.can_be_installed (p : SoftwarePackage) : Bool :=
  !p.installed

/-- Model of `SoftwarePackage.can_be_updated`. -/
def SoftwarePackage.can_be_updated (p : SoftwarePackage) : Bool :=
  p.installed && p.update

/-- Model of `SoftwarePackage.supports_disk_cache`. -/
def SoftwarePackage.supports_disk_cache (p : SoftwarePackage) : Bool :=
  p.installed && p.is_application

/-- Model of `SoftwarePackage.has_screenshots`. -/
def SoftwarePackage.has_screenshots (p : SoftwarePackage) : Bool :=
  !p.installed

/-- Modelled from the spec: `CACHE_DIR`, the cache-root constant that
`model.py` imports from the paths module, is absent from the excerpt's
`paths.py` (which defines `CACHE_PATH` instead), so the cache root is
passed as an abstract string argument; the spec calls the resulting
layout `cache_root/type/...`.  Model of
`SoftwarePackage.get_disk_cache_path`. -/
def SoftwarePackage.get_disk_cache_path (cache_dir : String) (p : SoftwarePackage) : String :=
  cache_dir ++ "/" ++ p.get_type

/-- Model of `SoftwarePackage.get_disk_icon_path`: the guard `if path:`
is Python string truthiness, i.e. the branch is taken iff the cache
path is non-empty; otherwise the method falls through returning `None`. -/
def SoftwarePackage.get_disk_icon_path (cache_dir : String) (p : SoftwarePackage) : Option String :=
  let path := p.get_disk_cache_path cache_dir
  if path ≠ "" then some (path ++ "/icon.png") else none

/-- Model of `SoftwarePackage.get_disk_data_path`. -/
def SoftwarePackage.get_disk_data_path (cache_dir : String) (p : SoftwarePackage) : Option String :=
  let path := p.get_disk_cache_path cache_dir
  if path ≠ "" then some (path ++ "/data.json") else none

/-- Model of `PackageUpdate`: the four attributes set by `__init__`, in
insertion order (`id`, `name`, `version`, `type`). -/
structure PackageUpdate where
  id : String
  name : String
  version : String
  type : String
deriving DecidableEq, Repr

/-- Model of `PackageUpdate.__eq__`: `self.__dict__ == other.__dict__`. -/
def puEq (u v : PackageUpdate) : Bool :=
  (u.id == v.id) && (u.name == v.name) &&
  (u.version == v.version) && (u.type == v.type)

/-- Model of `PackageUpdate.__hash__`:
`sum(hash(v) for v in self.__dict__.values())`, with the built-in
string hash abstract. -/
def puHash (hs : String → Int) (u : PackageUpdate) : Int :=
  hs u.id + hs u.name + hs u.version + hs u.type

/-- Model of a Python `dict` record in a package history, as an
association list. -/
abbrev HistoryRecord := List (String × String)

/-- Model of `PackageHistory`. -/
structure PackageHistory where
  pkg : SoftwarePackage
  history : List HistoryRecord
  pkg_status_idx : Int
deriving DecidableEq, Repr

/-- Model of the classmethod `PackageHistory.empyt` (sic). -/
def PackageHistory.empyt (pkg : SoftwarePackage) : PackageHistory :=
  { pkg := pkg, history := [], pkg_status_idx := -1 }

/-- Model of `SuggestionPriority`. -/
inductive SuggestionPriority where
  | LOW
  | MEDIUM
  | HIGH
  | TOP
deriving DecidableEq, Repr, Fintype

/-- The `value` of each `SuggestionPriority` member, as assigned in the
enum body. -/
def SuggestionPriority.value : SuggestionPriority → Nat
  | .LOW => 0
  | .MEDIUM => 1
  | .HIGH => 2
  | .TOP => 3

/-- An operand of `SuggestionPriority.__gt__` / `__lt__`: either a
`SuggestionPriority` member or any other Python value (the code never
inspects a non-member operand, so non-members are indexed abstractly). -/
inductive PyOperand where
  | prio : SuggestionPriority → PyOperand
  | other : Nat → PyOperand
deriving DecidableEq, Repr

/-- The possible results of a Python rich-comparison method: a boolean,
`None` (what falling off the end of the function returns), or the
`NotImplemented` sentinel that would delegate to the other operand. -/
inductive PyCmpResult where
  | pyNone
  | pyBool : Bool → PyCmpResult
  | pyNotImplemented
deriving DecidableEq, Repr

/-- Model of `SuggestionPriority.__gt__`: compares `value` when the
operand is a member, otherwise falls off the end, returning `None`. -/
def SuggestionPriority.gtDunder (p : SuggestionPriority) : PyOperand → PyCmpResult
  | .prio q => .pyBool (decide (p.value > q.value))
  | .other _ => .pyNone

/-- Model of `SuggestionPriority.__lt__`. -/
def SuggestionPriority.ltDunder (p : SuggestionPriority) : PyOperand → PyCmpResult
  | .prio q => .pyBool (decide (p.value < q.value))
  | .other _ => .pyNone

/-- Representative concrete package instance, used by witnesses. -/
def egPkg : SoftwarePackage :=
  { id := some "org.eg.App", version := some "1.0", name := some "eg",
    description := none, latest_version := some "1.1", icon_url := none,
    status := .READY, installed := true, update := true, size := some 1024,
    categories := some ["video"], license := some "GPL-3.0",
    module_name := "bauh.gems.flatpak.model", get_type := "flatpak",
    is_application := true }

/-- Representative concrete custom action, used by witnesses. -/
def egCSA : CustomSoftwareAction :=
  { i18n_label_key := "action.label", i18n_status_key := "action.status",
    icon_path := none, manager_method := "launch", requires_root := false,
    manager := none, backup := false, refresh := true,
    i18n_confirm_key := none, requires_internet := false,
    requires_confirmation := true, i18n_description_key := none }

/-- Representative concrete pending update, used by witnesses. -/
def egPU : PackageUpdate :=
  { id := "org.eg.App", name := "eg", version := "1.1", type := "flatpak" }

/-! ### Helper lemmas -/

/-- Helper: `csaEq` is exactly structural equality over all twelve fields. -/
theorem csaEq_iff (a b : CustomSoftwareAction) : csaEq a b = true ↔ a = b := by
  cases a; cases b
  simp [csaEq, and_assoc]

/-- Helper: `puEq` is exactly structural equality over all four fields. -/
theorem puEq_iff (u v : PackageUpdate) : puEq u v = true ↔ u = v := by
  cases u; cases v
  simp [puEq, and_assoc]

/-- Helper: the disk cache path is never the empty string, since it always
contains the separator between the cache root and the type. -/
theorem get_disk_cache_path_ne_empty (cache_dir : String) (p : SoftwarePackage) :
    p.get_disk_cache_path cache_dir ≠ "" := by
  intro h
  have hlen : (p.get_disk_cache_path cache_dir).length = 0 := by rw [h]; rfl
  have hsl : ("/" : String).length = 1 := rfl
  simp [SoftwarePackage.get_disk_cache_path, String.length_append, hsl] at hlen

/-- Helper: `List.get?` returns a value exactly when the index is in
range (the model of Python indexing raising `IndexError` out of range). -/
theorem get?_isSome_iff (l : List String) (n : Nat) :
    (l.get? n).isSome = true ↔ n < l.length := by
  constructor
  · intro h
    by_contra hlt
    rw [List.get?_eq_none.mpr (by omega)] at h
    simp at h
  · intro h
    rw [List.get?_eq_get h]
    rfl

/-! ### Claim theorems -/

/-- Claim C1, counterexample: `USER_THEMES_PATH`, `DESKTOP_ENTRIES_DIR`,
`TEMP_DIR` and `LOGS_DIR` do not switch when the effective-user check
flips, and the themes path stays home-relative even for root; so not
every path constant switches its base directory on the root check. -/
theorem C1_counterexample :
    (pathsModule true "bauh" "/root" "root").user_themes_path =
      (pathsModule false "bauh" "/root" "root").user_themes_path ∧
    (pathsModule true "bauh" "/root" "root").user_themes_path =
      "/root/.local/share/bauh/themes" ∧
    (pathsModule true "bauh" "/root" "root").desktop_entries_dir =
      (pathsModule false "bauh" "/root" "root").desktop_entries_dir ∧
    (pathsModule true "bauh" "/root" "root").temp_dir =
      (pathsModule false "bauh" "/root" "root").temp_dir ∧
    (pathsModule true "bauh" "/root" "root").logs_dir =
      (pathsModule false "bauh" "/root" "root").logs_dir := by
  refine ⟨rfl, rfl, rfl, rfl, rfl⟩

/-- Claim C1, amended: only `CACHE_PATH`, `CONFIG_DIR` and `AUTOSTART_DIR`
switch between a root-owned system path and a home-relative path on the
effective-user check; `USER_THEMES_PATH` and `DESKTOP_ENTRIES_DIR` are
always home-relative, and `TEMP_DIR` and `LOGS_DIR` are always under
`/tmp`, varying by username, not by the root check. -/
theorem C1_amended_paths (b : Bool) (app home user : String) :
    CACHE_PATH b app home =
      (if b then "/var/cache/" ++ app else home ++ "/.cache/" ++ app) ∧
    CONFIG_DIR b app home =
      (if b then "/etc/" ++ app else home ++ "/.config/" ++ app) ∧
    AUTOSTART_DIR b home =
      (if b then "/etc/xdg/autostart" else home ++ "/.config/autostart") ∧
    (pathsModule b app home user).user_themes_path =
      home ++ "/.local/share/bauh/themes" ∧
    (pathsModule b app home user).desktop_entries_dir =
      home ++ "/.local/share/applications" ∧
    (pathsModule b app home user).temp_dir =
      "/tmp/" ++ app ++ "@" ++ user ∧
    (pathsModule b app home user).logs_dir =
      TEMP_DIR app user ++ "/logs" := by
  refine ⟨rfl, rfl, rfl, rfl, rfl, rfl, rfl⟩

/-- Claim C2: `can_be_uninstalled` returns the `installed` flag,
`can_be_installed` its negation, and `can_be_updated` the conjunction of
the `installed` and `update` flags. -/
theorem C2_predicates (p : SoftwarePackage) :
    (p.can_be_uninstalled = true ↔ p.installed = true) ∧
    (p.can_be_installed = true ↔ p.installed = false) ∧
    (p.can_be_updated = true ↔ (p.installed = true ∧ p.update = true)) := by
  simp [SoftwarePackage.can_be_uninstalled, SoftwarePackage.can_be_installed,
        SoftwarePackage.can_be_updated]

/-- Claim C2, witness at a concrete package. -/
theorem C2_predicates_witness : egPkg.can_be_uninstalled = true :=
  (C2_predicates egPkg).1.mpr rfl

/-- Claim C3: for `CustomSoftwareAction` and `PackageUpdate`, equality is
structural over all fields, and instances with identical field values
are equal and have equal hashes (for any per-type hash functions). -/
theorem C3_structural_eq_hash (hs : String → Int) (hos : Option String → Int)
    (hb : Bool → Int) (hm : Option Nat → Int) (h : String → Int)
    (a b : CustomSoftwareAction) (u v : PackageUpdate) :
    (csaEq a b = true ↔ a = b) ∧
    (csaEq a b = true → csaHash hs hos hb hm a = csaHash hs hos hb hm b) ∧
    (puEq u v = true ↔ u = v) ∧
    (puEq u v = true → puHash h u = puHash h v) := by
  refine ⟨csaEq_iff a b, ?_, puEq_iff u v, ?_⟩
  · intro hab
    rw [csaEq_iff] at hab
    rw [hab]
  · intro huv
    rw [puEq_iff] at huv
    rw [huv]

/-- Claim C3, witness at concrete instances with identical field values. -/
theorem C3_structural_eq_hash_witness :
    csaEq egCSA egCSA = true ∧
    puHash (fun s => (s.length : Int)) egPU = puHash (fun s => (s.length : Int)) egPU :=
  ⟨(C3_structural_eq_hash (fun _ => 0) (fun _ => 0) (fun _ => 0) (fun _ => 0)
      (fun s => (s.length : Int)) egCSA egCSA egPU egPU).1.mpr rfl,
   (C3_structural_eq_hash (fun _ => 0) (fun _ => 0) (fun _ => 0) (fun _ => 0)
      (fun s => (s.length : Int)) egCSA egCSA egPU egPU).2.2.2 (by decide)⟩

/-- Claim C4: on members, the comparison methods realise the strict total
order LOW < MEDIUM < HIGH < TOP: TOP > LOW, the order is transitive and
irreflexive, greater-than mirrors less-than, and the chain holds. -/
theorem C4_total_order :
    SuggestionPriority.gtDunder .TOP (.prio .LOW) = .pyBool true ∧
    (∀ a b c : SuggestionPriority,
        a.ltDunder (.prio b) = .pyBool true →
        b.ltDunder (.prio c) = .pyBool true →
        a.ltDunder (.prio c) = .pyBool true) ∧
    (∀ a b : SuggestionPriority,
        a.gtDunder (.prio b) = .pyBool true ↔ b.ltDunder (.prio a) = .pyBool true) ∧
    (∀ a : SuggestionPriority, a.ltDunder (.prio a) = .pyBool false) ∧
    (∀ a b : SuggestionPriority, a = b ∨
        a.ltDunder (.prio b) = .pyBool true ∨ b.ltDunder (.prio a) = .pyBool true) ∧
    SuggestionPriority.ltDunder .LOW (.prio .MEDIUM) = .pyBool true ∧
    SuggestionPriority.ltDunder .MEDIUM (.prio .HIGH) = .pyBool true ∧
    SuggestionPriority.ltDunder .HIGH (.prio .TOP) = .pyBool true := by
  decide

/-- Claim C4, witness: transitivity applied at LOW < MEDIUM < HIGH. -/
theorem C4_total_order_witness :
    SuggestionPriority.ltDunder .LOW (.prio .HIGH) = .pyBool true :=
  C4_total_order.2.1 .LOW .MEDIUM .HIGH rfl rfl

/-- Claim C5: the disk cache path is the cache root, a slash and the
package type; the icon and data paths append `/icon.png` and
`/data.json` to it. -/
theorem C5_disk_paths (cache_dir : String) (p : SoftwarePackage) :
    p.get_disk_cache_path cache_dir = cache_dir ++ "/" ++ p.get_type ∧
    p.get_disk_icon_path cache_dir =
      some (p.get_disk_cache_path cache_dir ++ "/icon.png") ∧
    p.get_disk_data_path cache_dir =
      some (p.get_disk_cache_path cache_dir ++ "/data.json") := by
  refine ⟨rfl, ?_, ?_⟩ <;>
    simp [SoftwarePackage.get_disk_icon_path, SoftwarePackage.get_disk_data_path,
          get_disk_cache_path_ne_empty]

/-- Claim C6: the `empyt` factory returns a history holding the given
package, the empty revision list, and current index -1. -/
theorem C6_empyt (pkg : SoftwarePackage) :
    (PackageHistory.empyt pkg).pkg = pkg ∧
    (PackageHistory.empyt pkg).history = [] ∧
    (PackageHistory.empyt pkg).pkg_status_idx = -1 :=
  ⟨rfl, rfl, rfl⟩

/-- Claim C7, counterexample: the `gem_name` derivation indexes segment 2
of the dotted module name, and for a module named `__main__` the split
has a single segment, so the indexing raises `IndexError` (`none` in
the model) instead of completing normally. -/
theorem C7_counterexample :
    gem_name "__main__" = none ∧ (pySplit "__main__" '.').length = 1 := by
  decide

/-- Claim C7, amended: no operation in the excerpt contains a raise or
except statement, and every operation completes normally except the
`gem_name` derivation, which completes exactly when the defining
module's dotted name has at least three segments — as it does for every
repository gem module such as `bauh.gems.flatpak.model`. -/
theorem C7_gem_name_total_iff (m : String) :
    ((gem_name m).isSome = true ↔ 3 ≤ (pySplit m '.').length) ∧
    gem_name "bauh.gems.flatpak.model" = some "flatpak" := by
  constructor
  · show ((pySplit m '.').get? 2).isSome = true ↔ 3 ≤ (pySplit m '.').length
    rw [get?_isSome_iff]
    omega
  · decide

/-- Claim C7, witness: the derivation completes on a repository gem
module. -/
theorem C7_gem_name_total_iff_witness :
    (gem_name "bauh.gems.flatpak.model").isSome = true :=
  (C7_gem_name_total_iff "bauh.gems.flatpak.model").1.mpr (by decide)

/-- Claim C8: the icon and data path methods always return a value (the
falsy guard is unreachable), because the disk cache path has positive
length. -/
theorem C8_guard_unreachable (cache_dir : String) (p : SoftwarePackage) :
    (p.get_disk_icon_path cache_dir).isSome = true ∧
    (p.get_disk_data_path cache_dir).isSome = true ∧
    0 < (p.get_disk_cache_path cache_dir).length := by
  have hne := get_disk_cache_path_ne_empty cache_dir p
  refine ⟨?_, ?_, ?_⟩
  · simp [SoftwarePackage.get_disk_icon_path, hne]
  · simp [SoftwarePackage.get_disk_data_path, hne]
  · have hsl : ("/" : String).length = 1 := rfl
    simp [SoftwarePackage.get_disk_cache_path, String.length_append, hsl]

/-- Claim C9: the default `has_screenshots` is the negation of the
`installed` flag, and the default `supports_disk_cache` is the
conjunction of `installed` and the `is_application` result. -/
theorem C9_default_predicates (p : SoftwarePackage) :
    (p.has_screenshots = true ↔ p.installed = false) ∧
    (p.supports_disk_cache = true ↔ (p.installed = true ∧ p.is_application = true)) := by
  simp [SoftwarePackage.has_screenshots, SoftwarePackage.supports_disk_cache]

/-- Claim C9, witness at a concrete installed application. -/
theorem C9_default_predicates_witness : egPkg.supports_disk_cache = true :=
  (C9_default_predicates egPkg).2.mpr ⟨rfl, rfl⟩

/-- Claim C10: comparing a priority with a non-priority operand returns
Python `None` from both methods — a value distinct from `False` and
from the `NotImplemented` sentinel. -/
theorem C10_none_on_foreign (p : SuggestionPriority) (n : Nat) :
    p.gtDunder (.other n) = .pyNone ∧
    p.ltDunder (.other n) = .pyNone ∧
    ((PyCmpResult.pyNone == PyCmpResult.pyBool false) = false) ∧
    ((PyCmpResult.pyNone == PyCmpResult.pyNotImplemented) = false) :=
  ⟨rfl, rfl, by decide, by decide⟩

end Bauh
